import Mathlib

/-!
Verification of the WalletIntel normalization pipeline and aggregators.

This file gives a shallow embedding of the `Finance` pipeline of `app.py`
(`_combine_columns`, `_split_transfers`, `_enforce_types`,
`monthly_profit_and_loss`) and of the top-N grouping of
`Graph.expense_pie_topN` in `graphs.py`, and proves the spec's claims
about them.

Modelling conventions:
* A pandas cell that may be NaN/None is `Option α`; a missing value is `none`.
* Numeric Amount cells are modelled as exact integers (`Int`).  The source
  stores amounts as floats, but every property at stake (sign flips,
  conservation, summation, absolute values) is exact algebra on the values,
  so the exact idealization is faithful; negating a missing value stays
  missing (`Option.map`), as `-NaN = NaN` in pandas.
* A DataFrame is a `List` of row structures; boolean masks are `List.filter`
  and `pd.concat` is list append, which preserves row order exactly as the
  source does.
* Group-by results are keyed lists.  pandas sorts group keys ascending;
  the claims under check are about which groups appear and with which
  values, never about the order of groups, so the embedding produces the
  groups in first-scan order (deduplicated key list) and the theorems are
  stated order-insensitively (membership).
-/

namespace WalletIntel

/-- Python `str.strip()` semantics on the character list: drop whitespace
from both ends (pandas `Series.str.strip` applies this per cell). -/
def stripChars (l : List Char) : List Char :=
  ((l.dropWhile Char.isWhitespace).reverse.dropWhile Char.isWhitespace).reverse

/-- Python `str.strip()` on a `String`. -/
def pyStrip (s : String) : String := String.mk (stripChars s.data)

/-- The wide raw schema of `app.py` (`RawRecord` in the spec): five parallel
column families plus `Timestamp` and `Nature of Record`.  Field order within
a family follows the declared column lists `AMOUNT_COLS`, `ACCOUNT_COLS`,
`SOURCE_COLS`, `DESC_COLS` of class `Finance` (Income, Expense, Transfer,
Transfer-In, Transfer-Out).  The raw `Timestamp` cell is not inspected by
these stages and is carried through opaquely as an `Option String` tag. -/
structure RawRow where
  timestamp : Option String
  natureOfRecord : Option String
  incomeAmount : Option Int
  expenseAmount : Option Int
  transferAmount : Option Int
  transferInAmount : Option Int
  transferOutAmount : Option Int
  incomeAccount : Option String
  expenseSource : Option String
  transferAccount : Option String
  transferInAccount : Option String
  transferOutSource : Option String
  incomeSource : Option String
  expenseAccount : Option String
  transferSource : Option String
  transferInSource : Option String
  transferOutAccount : Option String
  incomeNote : Option String
  expenseNote : Option String
  transferNote : Option String
  transferInNote : Option String
  transferOutNote : Option String
  deriving DecidableEq, Repr

/-- The coalesced narrow schema produced by `_combine_columns`: `Timestamp`,
`Nature of Record` and the four unified fields. -/
structure CombinedRow where
  timestamp : Option String
  natureOfRecord : Option String
  amount : Option Int
  account : Option String
  source : Option String
  description : Option String
  deriving DecidableEq, Repr

/-- First non-null value of a list of cells: the row-wise effect of
`df[cols].bfill(axis=1).iloc[:, 0]` — back-fill along the columns and read
the first column, i.e. the first non-null scanning left to right. -/
def firstNonNull {α : Type} : List (Option α) → Option α
  | [] => none
  | c :: rest =>
    match c with
    | some v => some v
    | none => firstNonNull rest

/-- The sign-flip prefix of `_combine_columns` (lines 86-88):
`raw["Expense Amount"] = -raw["Expense Amount"]` and
`raw["Transfer-Out Amount"] = -raw["Transfer-Out Amount"]`, applied in place
before coalescing.  Negation of a missing cell stays missing. -/
def sign_normalize (r : RawRow) : RawRow :=
  { r with
    expenseAmount := r.expenseAmount.map (fun q => -q)
    transferOutAmount := r.transferOutAmount.map (fun q => -q) }

/-- The coalescing core of `_combine_columns` (lines 90-94): for each of the
four families, take the first non-null value scanning the family's columns
in the declared order; the original family columns are dropped. -/
def coalesce_row (r : RawRow) : CombinedRow :=
  { timestamp := r.timestamp
    natureOfRecord := r.natureOfRecord
    amount := firstNonNull
      [r.incomeAmount, r.expenseAmount, r.transferAmount,
       r.transferInAmount, r.transferOutAmount]
    account := firstNonNull
      [r.incomeAccount, r.expenseSource, r.transferAccount,
       r.transferInAccount, r.transferOutSource]
    source := firstNonNull
      [r.incomeSource, r.expenseAccount, r.transferSource,
       r.transferInSource, r.transferOutAccount]
    description := firstNonNull
      [r.incomeNote, r.expenseNote, r.transferNote,
       r.transferInNote, r.transferOutNote] }

/-- `Finance._combine_columns` per row: sign flips, then coalescing. -/
def combine_columns (r : RawRow) : CombinedRow :=
  coalesce_row (sign_normalize r)

/-- The transfer test of `_split_transfers` (line 108):
`raw["Nature of Record"].str.strip().fillna("") == "Transfer"` — strip the
label (a null label stays null, then `fillna` turns it into `""`), and
compare for exact, case-sensitive equality with `"Transfer"`. -/
def is_transfer (r : CombinedRow) : Bool :=
  (match r.natureOfRecord with
   | some s => pyStrip s
   | none => "") == "Transfer"

/-- The outbound leg built from a Transfer row (lines 113-120): negate the
Amount, swap `Source` and `Account`, and set `Nature of Record` to
`"Transfer-Out"`.  All other fields are copied. -/
def transferOutLeg (r : CombinedRow) : CombinedRow :=
  { r with
    amount := r.amount.map (fun q => -q)
    source := r.account
    account := r.source
    natureOfRecord := some "Transfer-Out" }

/-- The inbound leg built from a Transfer row (lines 123-125): the Amount is
reassigned to itself (unchanged) and `Nature of Record` is set to
`"Transfer-In"`.  All other fields are copied. -/
def transferInLeg (r : CombinedRow) : CombinedRow :=
  { r with natureOfRecord := some "Transfer-In" }

/-- `Finance._split_transfers` (lines 105-133): partition by `is_transfer`,
build the two legs from each Transfer row, and concatenate
non-transfer rows with `concat([transfer_expense, transfer_income])`. -/
def split_transfers (rows : List CombinedRow) : List CombinedRow :=
  let transferRows := rows.filter is_transfer
  let nonTransferRows := rows.filter (fun r => !(is_transfer r))
  nonTransferRows ++ (transferRows.map transferOutLeg ++ transferRows.map transferInLeg)

/-- A parsed date-time (the relevant observable parts: calendar fields). -/
structure Timestamp where
  year : Int
  month : Int
  day : Int
  deriving DecidableEq, Repr

/-- A raw cell as seen by the type-coercion stage: missing, a value pandas
parses as a date-time, a value it parses as a number, or text it can parse
as neither (e.g. `"not-a-date"`). -/
inductive RawCell where
  | null : RawCell
  | dateVal : Timestamp → RawCell
  | numVal : Int → RawCell
  | textVal : String → RawCell
  deriving DecidableEq, Repr

/-- `pd.to_datetime(col, errors="coerce")` per cell: a parseable date-time
yields its parse, anything else coerces to null; a total function — never an
error. -/
def to_datetime_coerce : RawCell → Option Timestamp
  | RawCell.dateVal t => some t
  | _ => none

/-- `pd.to_numeric(col, errors="coerce")` per cell: a parseable number
yields its value, anything else coerces to null; a total function — never an
error. -/
def to_numeric_coerce : RawCell → Option Int
  | RawCell.numVal q => some q
  | _ => none

/-- The finalized six-column schema entering `_enforce_types`: `Timestamp`
and `Amount` still hold raw cells, the rest are nullable strings. -/
structure SchemaRow where
  timestamp : RawCell
  natureOfRecord : Option String
  amount : RawCell
  source : Option String
  account : Option String
  description : Option String
  deriving DecidableEq, Repr

/-- The canonical typed ledger entry (`LedgerEntry` in the spec):
`Description` is a plain `String`, the one field guaranteed non-null. -/
structure LedgerRow where
  timestamp : Option Timestamp
  natureOfRecord : Option String
  amount : Option Int
  source : Option String
  account : Option String
  description : String
  deriving DecidableEq, Repr

/-- `Finance._enforce_types` (lines 143-151) per row: coerce `Timestamp`
and `Amount` with the null-on-failure coercions, keep the string fields
(nulls preserved), and fill a null `Description` with `""`. -/
def enforce_types (r : SchemaRow) : LedgerRow :=
  { timestamp := to_datetime_coerce r.timestamp
    natureOfRecord := r.natureOfRecord
    amount := to_numeric_coerce r.amount
    source := r.source
    account := r.account
    description := r.description.getD "" }

/-- The month mask of `monthly_profit_and_loss` (lines 62-65):
`(df["Timestamp"].dt.year == year) & (df["Timestamp"].dt.month == month)`.
A null timestamp (`NaT`) compares unequal to any year and month, so the
mask is false for it. -/
def inMonth (month year : Int) (r : LedgerRow) : Bool :=
  match r.timestamp with
  | none => false
  | some t => t.year == year && t.month == month

/-- `df[mask]` for the month mask. -/
def monthFilter (rows : List LedgerRow) (month year : Int) : List LedgerRow :=
  rows.filter (inMonth month year)

/-- The pivot key of a ledger row: `(Nature of Record, Account)`.  pandas
`groupby`/`pivot_table` (default `dropna=True`) drops rows with a null key
component, hence `none` for those. -/
def rowKey (r : LedgerRow) : Option (String × String) :=
  match r.natureOfRecord, r.account with
  | some n, some a => some (n, a)
  | _, _ => none

/-- Sum of `Amount` over the rows with the given pivot key; a null Amount is
skipped (pandas `sum` skips NaN, and an all-null group sums to 0). -/
def sumForKey (k : String × String) (rows : List LedgerRow) : Int :=
  ((rows.filter (fun r => rowKey r == some k)).map (fun r => r.amount.getD 0)).sum

/-- The pivot of `monthly_profit_and_loss` (lines 69-74):
`pivot_table(index=["Nature of Record", "Account"], values="Amount",
aggfunc="sum", fill_value=0.0)` with the default `dropna=True` — one output
group per observed key combination, holding the group's Amount sum.  With
only `index` keys and `dropna=True`, no cartesian expansion of key levels
takes place, so `fill_value` never materializes an absent combination. -/
def groupSum (rows : List LedgerRow) : List ((String × String) × Int) :=
  ((rows.filterMap rowKey).dedup).map (fun k => (k, sumForKey k rows))

/-- `Finance.monthly_profit_and_loss(month, year)`: month filter, then the
grouped Amount sums. -/
def monthly_profit_and_loss (rows : List LedgerRow) (month year : Int) :
    List ((String × String) × Int) :=
  groupSum (monthFilter rows month year)

/-- The aggregation of `Graph.expense_pie_topN` (graphs.py lines 14-19):
`exp_df.groupby("Source")["Amount"].sum().abs()` — group by `Source`
(null keys dropped), sum each group's Amount (nulls skipped), then take the
absolute value OF THE SUM. -/
def sourceSums (rows : List LedgerRow) : List (String × Int) :=
  ((rows.filterMap (fun r => r.source)).dedup).map
    (fun s =>
      (s, |((rows.filter (fun r => r.source == some s)).map
              (fun r => r.amount.getD 0)).sum|))

/-- `sort_values(ascending=False)`: sort the grouped sums descending by
value (order among equal values is not significant). -/
def sortDesc (l : List (String × Int)) : List (String × Int) :=
  List.insertionSort (fun a b => b.2 ≤ a.2) l

/-- `Graph.expense_pie_topN` (graphs.py lines 14-34), the data part:
keep the first `topN` sorted groups (`data.head(topN)`), sum the rest
(`data.iloc[topN:].sum()`, `0` when empty), and append an `"Others"` row
only when that remainder sum is strictly positive (`if others_sum > 0`). -/
def expense_pie_topN (rows : List LedgerRow) (topN : Nat) : List (String × Int) :=
  let data := sortDesc (sourceSums rows)
  let top := data.take topN
  let othersSum := ((data.drop topN).map (fun p => p.2)).sum
  if 0 < othersSum then top ++ [("Others", othersSum)] else top

/-- Modelled from the spec's words, for comparison with the code (claim C8
says the top-N grouping "sums absolute Amount" per Source — sum of absolute
values, not absolute value of the sum). -/
def sourceSums_claimed (rows : List LedgerRow) : List (String × Int) :=
  ((rows.filterMap (fun r => r.source)).dedup).map
    (fun s =>
      (s, ((rows.filter (fun r => r.source == some s)).map
             (fun r => |r.amount.getD 0|)).sum))

/-- The top-N collapse as claim C8 words it: identical to
`expense_pie_topN` except that each group's value is the sum of absolute
Amounts. -/
def expense_pie_topN_claimed (rows : List LedgerRow) (topN : Nat) :
    List (String × Int) :=
  let data := sortDesc (sourceSums_claimed rows)
  let top := data.take topN
  let othersSum := ((data.drop topN).map (fun p => p.2)).sum
  if 0 < othersSum then top ++ [("Others", othersSum)] else top

/-- Modelled from the spec's words, for comparison with the code (claim C3
says the transfer test is case-insensitive as well as
whitespace-insensitive): strip, then compare ignoring character case. -/
def is_transfer_claimed (r : CombinedRow) : Bool :=
  (match r.natureOfRecord with
   | some s => (stripChars s.data).map Char.toLower
   | none => []) == "Transfer".data.map Char.toLower

/-! ### Example rows used by witnesses and counterexamples -/

/-- A well-formed Transfer row after coalescing. -/
def txRow : CombinedRow :=
  { timestamp := some "2025-11-03"
    natureOfRecord := some " Transfer "
    amount := some 500
    account := some "Bank"
    source := some "Cash"
    description := some "move funds" }

/-- A non-transfer (Income) row after coalescing. -/
def plainRow : CombinedRow :=
  { timestamp := some "2025-11-04"
    natureOfRecord := some "Income"
    amount := some 1200
    account := some "Bank"
    source := some "Salary"
    description := some "pay" }

/-- A row whose label is a lower-case " transfer ". -/
def lcTransferRow : CombinedRow :=
  { timestamp := some "2025-11-05"
    natureOfRecord := some " transfer "
    amount := some 75
    account := some "B"
    source := some "A"
    description := some "lower case label" }

/-! ### Claims about the Transfer Splitter -/

/-- **C1.** For every Transfer row whose coalesced Amount is a valid numeric
value q, the transfer split emits exactly two ledger entries for it — a
Transfer-Out leg with Amount -q and a Transfer-In leg with Amount q
unchanged — so the two legs' Amounts sum to exactly zero. -/
theorem C1_transfer_conservation (r : CombinedRow) (q : Int)
    (hT : is_transfer r = true) (hA : r.amount = some q) :
    split_transfers [r] = [transferOutLeg r, transferInLeg r] ∧
    (transferOutLeg r).amount = some (-q) ∧
    (transferInLeg r).amount = some q ∧
    (transferOutLeg r).amount.getD 0 + (transferInLeg r).amount.getD 0 = 0 := by
  refine ⟨?_, ?_, ?_, ?_⟩
  · simp [split_transfers, hT]
  · simp [transferOutLeg, hA]
  · simp [transferInLeg, hA]
  · simp [transferOutLeg, transferInLeg, hA]

/-- Witness for C1 at the concrete Transfer row `txRow` (Amount 500). -/
theorem C1_transfer_conservation_witness :
    split_transfers [txRow] = [transferOutLeg txRow, transferInLeg txRow] ∧
    (transferOutLeg txRow).amount = some (-500) ∧
    (transferInLeg txRow).amount = some 500 ∧
    (transferOutLeg txRow).amount.getD 0 + (transferInLeg txRow).amount.getD 0 = 0 :=
  C1_transfer_conservation txRow 500 (by decide) rfl

/-- **C2.** For every input table, the transfer-splitting stage's output row
count equals the number of non-transfer rows plus two times the number of
transfer rows; non-transfer rows pass through (as the very same row, hence
with Nature of Record unchanged). -/
theorem C2_row_count_law (rows : List CombinedRow) :
    (split_transfers rows).length =
      (rows.filter (fun r => !(is_transfer r))).length +
        2 * (rows.filter is_transfer).length ∧
    ∀ r ∈ rows, is_transfer r = false → r ∈ split_transfers rows := by
  constructor
  · simp [split_transfers]
    omega
  · intro r hr hf
    exact List.mem_append_left _ (List.mem_filter.mpr ⟨hr, by simp [hf]⟩)

/-- Witness for C2 on the concrete two-row table [txRow, plainRow]:
row count 1 + 2·1 = 3 and the non-transfer row passes through. -/
theorem C2_row_count_law_witness :
    (split_transfers [txRow, plainRow]).length =
      ([txRow, plainRow].filter (fun r => !(is_transfer r))).length +
        2 * ([txRow, plainRow].filter is_transfer).length ∧
    plainRow ∈ split_transfers [txRow, plainRow] :=
  ⟨(C2_row_count_law [txRow, plainRow]).1,
   (C2_row_count_law [txRow, plainRow]).2 plainRow (by decide) (by decide)⟩

/-- **C3 counterexample.** The row `lcTransferRow`, labelled " transfer ",
passes the claim's case-insensitive test, but the code's test is
case-sensitive: the row is not classified as a Transfer and passes through
unchanged instead of being split into two legs. -/
theorem C3_counterexample :
    is_transfer_claimed lcTransferRow = true ∧
    is_transfer lcTransferRow = false ∧
    split_transfers [lcTransferRow] = [lcTransferRow] := by
  refine ⟨by decide, by decide, by decide⟩

/-- **C3 (amended).** The transfer splitter classifies a row as a Transfer
by a CASE-SENSITIVE equality test of its whitespace-stripped Nature of
Record against "Transfer" (a null label is treated as "" and fails); every
row failing that test passes through unchanged as a non-transfer row. -/
theorem C3_amended_classification (rows : List CombinedRow) (r : CombinedRow)
    (hr : r ∈ rows) :
    (is_transfer r = true ↔
      (match r.natureOfRecord with
       | some s => pyStrip s
       | none => "") = "Transfer") ∧
    (r.natureOfRecord = none → is_transfer r = false) ∧
    ((match r.natureOfRecord with
      | some s => pyStrip s
      | none => "") ≠ "Transfer" → r ∈ split_transfers rows) := by
  refine ⟨?_, ?_, ?_⟩
  · simp [is_transfer]
  · intro hn
    simp [is_transfer, hn]
  · intro hne
    have hf : is_transfer r = false := by
      simp [is_transfer]
      exact hne
    exact List.mem_append_left _ (List.mem_filter.mpr ⟨hr, by simp [hf]⟩)

/-- Witness for C3 (amended) at `lcTransferRow`: its stripped label
"transfer" is not "Transfer", so it passes through unchanged. -/
theorem C3_amended_classification_witness :
    lcTransferRow ∈ split_transfers [lcTransferRow] :=
  (C3_amended_classification [lcTransferRow] lcTransferRow (by decide)).2.2
    (by decide)

/-- **C9.** For every Transfer row, both emitted legs preserve the original
row's Timestamp and Description unchanged; only Amount, Source, Account and
Nature of Record can differ (the Transfer-In leg in fact also keeps Amount,
Source and Account unchanged). -/
theorem C9_legs_preserve_frame (r : CombinedRow) (hT : is_transfer r = true) :
    (transferOutLeg r).timestamp = r.timestamp ∧
    (transferOutLeg r).description = r.description ∧
    (transferInLeg r).timestamp = r.timestamp ∧
    (transferInLeg r).description = r.description ∧
    (transferInLeg r).amount = r.amount ∧
    (transferInLeg r).source = r.source ∧
    (transferInLeg r).account = r.account := by
  simp [transferOutLeg, transferInLeg]

/-- Witness for C9 at the concrete Transfer row `txRow`. -/
theorem C9_legs_preserve_frame_witness :
    (transferOutLeg txRow).timestamp = txRow.timestamp ∧
    (transferOutLeg txRow).description = txRow.description ∧
    (transferInLeg txRow).timestamp = txRow.timestamp ∧
    (transferInLeg txRow).description = txRow.description ∧
    (transferInLeg txRow).amount = txRow.amount ∧
    (transferInLeg txRow).source = txRow.source ∧
    (transferInLeg txRow).account = txRow.account :=
  C9_legs_preserve_frame txRow (by decide)

/-! ### Claims about the Column Coalescer, Sign Normalizer and Type Enforcer -/

/-- An all-null raw row, a convenient base for concrete raw rows. -/
def emptyRawRow : RawRow :=
  { timestamp := none, natureOfRecord := none
    incomeAmount := none, expenseAmount := none, transferAmount := none
    transferInAmount := none, transferOutAmount := none
    incomeAccount := none, expenseSource := none, transferAccount := none
    transferInAccount := none, transferOutSource := none
    incomeSource := none, expenseAccount := none, transferSource := none
    transferInSource := none, transferOutAccount := none
    incomeNote := none, expenseNote := none, transferNote := none
    transferInNote := none, transferOutNote := none }

/-- A malformed raw row with both "Income Amount" and "Expense Amount"
populated. -/
def rawBothRow : RawRow :=
  { emptyRawRow with
    natureOfRecord := some "Income"
    incomeAmount := some 300
    expenseAmount := some 40 }

/-- A raw Expense row with Expense Amount 150. -/
def rawExpenseRow : RawRow :=
  { emptyRawRow with
    natureOfRecord := some "Expense"
    expenseAmount := some 150
    expenseSource := some "Wallet"
    expenseAccount := some "Food"
    expenseNote := some "lunch" }

/-- A raw Transfer row with Transfer Amount 500. -/
def rawTransferRow : RawRow :=
  { emptyRawRow with
    natureOfRecord := some "Transfer"
    transferAmount := some 500
    transferAccount := some "Bank"
    transferSource := some "Cash"
    transferNote := some "move funds" }

/-- **C4.** For every row and each of the four column families, the
coalesced field equals the first non-null value scanning the family's
columns in the fixed order Income, Expense, Transfer, Transfer-In,
Transfer-Out, and is null when all members are null; in particular, a row
with both "Income Amount" and "Expense Amount" non-null coalesces to the
Income value (also through the full `_combine_columns`, since the Income
column is not sign-flipped). -/
theorem C4_coalescing_priority (r : RawRow) :
    (∀ q, r.incomeAmount = some q → (coalesce_row r).amount = some q) ∧
    (∀ q, r.incomeAmount = none → r.expenseAmount = some q →
      (coalesce_row r).amount = some q) ∧
    (∀ q, r.incomeAmount = none → r.expenseAmount = none →
      r.transferAmount = some q → (coalesce_row r).amount = some q) ∧
    (r.incomeAmount = none → r.expenseAmount = none → r.transferAmount = none →
      r.transferInAmount = none → r.transferOutAmount = none →
      (coalesce_row r).amount = none) ∧
    (∀ a, r.incomeAccount = some a → (coalesce_row r).account = some a) ∧
    (r.incomeAccount = none → r.expenseSource = none → r.transferAccount = none →
      r.transferInAccount = none → r.transferOutSource = none →
      (coalesce_row r).account = none) ∧
    (∀ a, r.incomeSource = some a → (coalesce_row r).source = some a) ∧
    (r.incomeSource = none → r.expenseAccount = none → r.transferSource = none →
      r.transferInSource = none → r.transferOutAccount = none →
      (coalesce_row r).source = none) ∧
    (∀ a, r.incomeNote = some a → (coalesce_row r).description = some a) ∧
    (r.incomeNote = none → r.expenseNote = none → r.transferNote = none →
      r.transferInNote = none → r.transferOutNote = none →
      (coalesce_row r).description = none) ∧
    (∀ qi qe, r.incomeAmount = some qi → r.expenseAmount = some qe →
      (combine_columns r).amount = some qi) := by
  refine ⟨?_, ?_, ?_, ?_, ?_, ?_, ?_, ?_, ?_, ?_, ?_⟩
  · intro q h
    simp [coalesce_row, firstNonNull, h]
  · intro q h1 h2
    simp [coalesce_row, firstNonNull, h1, h2]
  · intro q h1 h2 h3
    simp [coalesce_row, firstNonNull, h1, h2, h3]
  · intro h1 h2 h3 h4 h5
    simp [coalesce_row, firstNonNull, h1, h2, h3, h4, h5]
  · intro a h
    simp [coalesce_row, firstNonNull, h]
  · intro h1 h2 h3 h4 h5
    simp [coalesce_row, firstNonNull, h1, h2, h3, h4, h5]
  · intro a h
    simp [coalesce_row, firstNonNull, h]
  · intro h1 h2 h3 h4 h5
    simp [coalesce_row, firstNonNull, h1, h2, h3, h4, h5]
  · intro a h
    simp [coalesce_row, firstNonNull, h]
  · intro h1 h2 h3 h4 h5
    simp [coalesce_row, firstNonNull, h1, h2, h3, h4, h5]
  · intro qi qe h1 h2
    simp [combine_columns, coalesce_row, sign_normalize, firstNonNull, h1]

/-- Witness for C4 at the malformed row `rawBothRow` (Income 300 and Expense
40 both populated): the coalesced Amount is the Income value 300, and the
all-null Description family coalesces to null. -/
theorem C4_coalescing_priority_witness :
    (combine_columns rawBothRow).amount = some 300 ∧
    (coalesce_row rawBothRow).description = none :=
  ⟨(C4_coalescing_priority rawBothRow).2.2.2.2.2.2.2.2.2.2 300 40 rfl rfl,
   (C4_coalescing_priority rawBothRow).2.2.2.2.2.2.2.2.2.1 rfl rfl rfl rfl rfl⟩

/-- **C5.** The sign normalizer negates the Expense Amount and Transfer-Out
Amount columns (and only those amount columns) before coalescing: a row
with Nature of Record "Expense" and raw Expense Amount 150 yields canonical
Amount -150, while a raw "Transfer" row's coalesced Amount keeps its
original unsigned value at this stage. -/
theorem C5_sign_convention (r : RawRow) :
    (sign_normalize r).expenseAmount = r.expenseAmount.map (fun q => -q) ∧
    (sign_normalize r).transferOutAmount = r.transferOutAmount.map (fun q => -q) ∧
    (sign_normalize r).incomeAmount = r.incomeAmount ∧
    (sign_normalize r).transferAmount = r.transferAmount ∧
    (sign_normalize r).transferInAmount = r.transferInAmount ∧
    (∀ q, r.natureOfRecord = some "Expense" → r.incomeAmount = none →
      r.expenseAmount = some q → (combine_columns r).amount = some (-q)) ∧
    (∀ q, r.natureOfRecord = some "Transfer" → r.incomeAmount = none →
      r.expenseAmount = none → r.transferAmount = some q →
      (combine_columns r).amount = some q) := by
  refine ⟨rfl, rfl, rfl, rfl, rfl, ?_, ?_⟩
  · intro q _ h1 h2
    simp [combine_columns, coalesce_row, sign_normalize, firstNonNull, h1, h2]
  · intro q _ h1 h2 h3
    simp [combine_columns, coalesce_row, sign_normalize, firstNonNull, h1, h2, h3]

/-- Witness for C5 at `rawExpenseRow` (Expense Amount 150 becomes -150) and
`rawTransferRow` (Transfer Amount 500 stays 500). -/
theorem C5_sign_convention_witness :
    (combine_columns rawExpenseRow).amount = some (-150) ∧
    (combine_columns rawTransferRow).amount = some 500 :=
  ⟨(C5_sign_convention rawExpenseRow).2.2.2.2.2.1 150 rfl rfl rfl,
   (C5_sign_convention rawTransferRow).2.2.2.2.2.2 500 rfl rfl rfl rfl⟩

/-- A finalized row whose Timestamp and Amount cells are unparsable text and
whose Description is null. -/
def badCellRow : SchemaRow :=
  { timestamp := RawCell.textVal "not-a-date"
    natureOfRecord := some "Expense"
    amount := RawCell.textVal "12x"
    source := some "Wallet"
    account := some "Food"
    description := none }

/-- **C6.** Every per-cell coercion of the Type Enforcer is a total function
following the coerce-to-null-on-failure policy (it never raises, so the
stage completes on any cell contents): an unparsable Timestamp cell becomes
null, an unparsable Amount cell becomes null (not zero), a null cell also
coerces to null, and a null Description becomes the empty string —
`Description` being a plain `String`, the one field guaranteed non-null. -/
theorem C6_coerce_to_null (r : SchemaRow) (s : String) :
    (r.timestamp = RawCell.textVal s → (enforce_types r).timestamp = none) ∧
    (r.timestamp = RawCell.null → (enforce_types r).timestamp = none) ∧
    (r.amount = RawCell.textVal s →
      (enforce_types r).amount = none ∧ (enforce_types r).amount ≠ some 0) ∧
    (r.amount = RawCell.null → (enforce_types r).amount = none) ∧
    (r.description = none → (enforce_types r).description = "") := by
  refine ⟨?_, ?_, ?_, ?_, ?_⟩
  · intro h
    simp [enforce_types, to_datetime_coerce, h]
  · intro h
    simp [enforce_types, to_datetime_coerce, h]
  · intro h
    simp [enforce_types, to_numeric_coerce, h]
  · intro h
    simp [enforce_types, to_numeric_coerce, h]
  · intro h
    simp [enforce_types, h]

/-- Witness for C6 at `badCellRow`: Timestamp "not-a-date" coerces to null,
Amount "12x" coerces to null and not zero, null Description becomes "". -/
theorem C6_coerce_to_null_witness :
    (enforce_types badCellRow).timestamp = none ∧
    ((enforce_types badCellRow).amount = none ∧
      (enforce_types badCellRow).amount ≠ some 0) ∧
    (enforce_types badCellRow).description = "" :=
  ⟨(C6_coerce_to_null badCellRow "not-a-date").1 rfl,
   (C6_coerce_to_null badCellRow "12x").2.2.1 rfl,
   (C6_coerce_to_null badCellRow "12x").2.2.2.2 rfl⟩

/-! ### Claims about the Aggregators -/

/-- A November 2025 Income ledger row for Account "A". -/
def novIncomeRow : LedgerRow :=
  { timestamp := some ⟨2025, 11, 3⟩
    natureOfRecord := some "Income"
    amount := some 100
    source := some "Salary"
    account := some "A"
    description := "pay" }

/-- A ledger row whose Timestamp coerced to null. -/
def nullTsRow : LedgerRow :=
  { timestamp := none
    natureOfRecord := some "Expense"
    amount := some (-30)
    source := some "Wallet"
    account := some "A"
    description := "no date" }

/-- **C7 counterexample.** In November 2025 the one-row ledger
`[novIncomeRow]` has an Income row for Account "A" and zero Expense rows;
the claim says the absent ("Expense", "A") combination appears with value
0.0, but the pivot (with only index keys and the default `dropna=True`)
produces only observed key combinations: the result is exactly the Income
group and contains no Expense group at all. -/
theorem C7_counterexample :
    monthly_profit_and_loss [novIncomeRow] 11 2025 = [(("Income", "A"), 100)] ∧
    ¬ ((("Expense", "A"), 0) ∈ monthly_profit_and_loss [novIncomeRow] 11 2025) := by
  refine ⟨by decide, by decide⟩

/-- **C7 (amended).** For every (month, year), the monthly
profit-and-loss operation returns exactly the OBSERVED groups of the
month's rows: a pair (k, v) is in the result iff some row whose Timestamp
falls in that calendar month carries the (Nature of Record, Account) key k,
and then v is the sum of that month's Amounts at key k (null Amounts
contributing 0).  Absent group combinations are omitted, not filled with
0.0: `fill_value` never materializes a group that has no row. -/
theorem C7_amended_monthly_pnl (rows : List LedgerRow) (month year : Int)
    (k : String × String) (v : Int) :
    (k, v) ∈ monthly_profit_and_loss rows month year ↔
      (∃ r ∈ monthFilter rows month year, rowKey r = some k) ∧
        v = sumForKey k (monthFilter rows month year) := by
  unfold monthly_profit_and_loss groupSum
  constructor
  · intro h
    rcases List.mem_map.mp h with ⟨a, ha, hfa⟩
    have hk : a = k := congrArg Prod.fst hfa
    subst hk
    have hv : sumForKey a (monthFilter rows month year) = v :=
      congrArg Prod.snd hfa
    refine ⟨?_, hv.symm⟩
    rcases List.mem_filterMap.mp (List.mem_dedup.mp ha) with ⟨r, hr, hrk⟩
    exact ⟨r, hr, hrk⟩
  · rintro ⟨⟨r, hr, hrk⟩, hv⟩
    apply List.mem_map.mpr
    refine ⟨k, ?_, by rw [hv]⟩
    exact List.mem_dedup.mpr (List.mem_filterMap.mpr ⟨r, hr, hrk⟩)

/-- **C10.** For every (month, year), a ledger entry whose Timestamp is null
is never included in the monthly profit-and-loss computation: the month
filter excludes null timestamps for all month and year arguments. -/
theorem C10_null_timestamp_excluded (rows : List LedgerRow) (month year : Int)
    (r : LedgerRow) (hr : r.timestamp = none) :
    r ∉ monthFilter rows month year := by
  intro hmem
  have h := (List.mem_filter.mp hmem).2
  simp [inMonth, hr] at h

/-- Witness for C10 at `nullTsRow`: it is not selected by the November 2025
month filter even though it sits in the input table. -/
theorem C10_null_timestamp_excluded_witness :
    nullTsRow ∉ monthFilter [novIncomeRow, nullTsRow] 11 2025 :=
  C10_null_timestamp_excluded [novIncomeRow, nullTsRow] 11 2025 nullTsRow rfl

/-- An Expense row of Source "A" with Amount 100. -/
def mixRow1 : LedgerRow :=
  { timestamp := some ⟨2025, 11, 6⟩
    natureOfRecord := some "Expense"
    amount := some 100
    source := some "A"
    account := some "X"
    description := "refunded later" }

/-- An Expense row of Source "A" with Amount -40. -/
def mixRow2 : LedgerRow :=
  { timestamp := some ⟨2025, 11, 7⟩
    natureOfRecord := some "Expense"
    amount := some (-40)
    source := some "A"
    account := some "X"
    description := "partial refund" }

/-- **C8 counterexample.** Source "A" carries Amounts 100 and -40.  The
code takes the absolute value of the group's sum, |100 + (-40)| = 60,
whereas the claim's "sums absolute Amount" gives |100| + |-40| = 140; with
N = 1 the two outputs differ, so the claim as stated is false of the code. -/
theorem C8_counterexample :
    expense_pie_topN [mixRow1, mixRow2] 1 = [("A", 60)] ∧
    expense_pie_topN_claimed [mixRow1, mixRow2] 1 = [("A", 140)] ∧
    expense_pie_topN [mixRow1, mixRow2] 1 ≠
      expense_pie_topN_claimed [mixRow1, mixRow2] 1 := by
  refine ⟨by decide, by decide, by decide⟩

/-- Five Expense rows with distinct Sources S1..S5 whose per-Source absolute
group sums are 100, 80, 60, 40, 20. -/
def fiveSourceRows : List LedgerRow :=
  [{ timestamp := some ⟨2025, 11, 1⟩, natureOfRecord := some "Expense"
     amount := some (-100), source := some "S1", account := some "X"
     description := "" },
   { timestamp := some ⟨2025, 11, 2⟩, natureOfRecord := some "Expense"
     amount := some (-80), source := some "S2", account := some "X"
     description := "" },
   { timestamp := some ⟨2025, 11, 3⟩, natureOfRecord := some "Expense"
     amount := some (-60), source := some "S3", account := some "X"
     description := "" },
   { timestamp := some ⟨2025, 11, 4⟩, natureOfRecord := some "Expense"
     amount := some (-40), source := some "S4", account := some "X"
     description := "" },
   { timestamp := some ⟨2025, 11, 5⟩, natureOfRecord := some "Expense"
     amount := some (-20), source := some "S5", account := some "X"
     description := "" }]

/-- **C8 (amended).** For every pre-filtered set of entries and every N, the
top-N grouping groups by Source, takes the ABSOLUTE VALUE OF each group's
summed Amount, sorts descending, keeps the first N groups verbatim, and
appends a single "Others" bucket equal to the remainder's sum exactly when
that sum is strictly positive; the sorted group list is descending —
so group sums [100, 80, 60, 40, 20] with N = 3 yield
[100, 80, 60, "Others" = 60], and N = 5 yields no "Others" row. -/
theorem C8_amended_topN (rows : List LedgerRow) (topN : Nat) :
    (expense_pie_topN rows topN =
      if 0 < (((sortDesc (sourceSums rows)).drop topN).map (fun p => p.2)).sum
      then (sortDesc (sourceSums rows)).take topN ++
        [("Others",
          (((sortDesc (sourceSums rows)).drop topN).map (fun p => p.2)).sum)]
      else (sortDesc (sourceSums rows)).take topN) ∧
    List.Sorted (fun a b : String × Int => b.2 ≤ a.2)
      (sortDesc (sourceSums rows)) ∧
    expense_pie_topN fiveSourceRows 3 =
      [("S1", 100), ("S2", 80), ("S3", 60), ("Others", 60)] ∧
    expense_pie_topN fiveSourceRows 5 =
      [("S1", 100), ("S2", 80), ("S3", 60), ("S4", 40), ("S5", 20)] := by
  refine ⟨rfl, ?_, by decide, by decide⟩
  haveI ht : IsTotal (String × Int) (fun a b => b.2 ≤ a.2) :=
    ⟨fun a b => le_total b.2 a.2⟩
  haveI htr : IsTrans (String × Int) (fun a b => b.2 ≤ a.2) :=
    ⟨fun a b c h1 h2 => le_trans h2 h1⟩
  exact List.sorted_insertionSort _ _

end WalletIntel
